import Mathlib

/-!
Shallow embedding of the node-ldapjs client core (connection/request
lifecycle engine) and proofs about it.  Each definition translates one
piece of the JavaScript source:

  * `corkedEmit`, `attachFirstListener`, `drainStep`, `drainRun` —
    lib/client/search-result/corked-emitter.js (CorkedEmitter)
  * the injectable async iterator and `toArray`/`entries` —
    lib/client/search-result (SearchResult)
  * `onPageEnd` — lib/client/search-result/paged-result.js
  * `changesFromObject`/`itemizeChanges` — Client.prototype.modify
  * `onRequestTimeout` — the per-request timer in Client.prototype._sendRequest
  * `onClose` — Client.prototype._onClose
  * `onSecureConnection` — Client.prototype.starttls success path
  * `destroyStep`, `connectAttempt` — Client.prototype.destroy / connect
  * `ensureDN`, `buildAddRequest` — the DN coercion helper and AddRequest

JavaScript quirks that matter are embedded explicitly: array truthiness
(an empty array is truthy), `this` being `undefined` inside a plain
function callback under strict mode, and `Array.prototype.map` passing
`(element, index)` to its callback.
-/

namespace NodeLdap

/-! ## Corked emitter (lib/client/search-result/corked-emitter.js) -/

/-- State of a CorkedEmitter.  `eventQueue = some q` models the JS field
holding an array `q` (truthy even when empty); `eventQueue = none` models
the field having been set to `false` after the drain.  `drainScheduled`
records a pending `setImmediate(emitOneEvent)`.  `delivered` is the list
of events actually emitted to listeners, in order. -/
structure CorkedState (α : Type) where
  eventQueue : Option (List α)
  drainScheduled : Bool
  delivered : List α
  deriving Repr, DecidableEq

/-- The constructor `CorkedEmitter()` sets `this.eventQueue = []`. -/
def corkedInit (α : Type) : CorkedState α :=
  { eventQueue := some [], drainScheduled := false, delivered := [] }

/-- `CorkedEmitter.prototype.emit` for an event other than `newListener`:
while `this.eventQueue` is truthy (an array, even an empty one) the bound
emit is pushed onto the queue; otherwise the event is emitted directly. -/
def corkedEmit {α : Type} (s : CorkedState α) (e : α) : CorkedState α :=
  match s.eventQueue with
  | some q => { s with eventQueue := some (q ++ [e]) }
  | none => { s with delivered := s.delivered ++ [e] }

/-- The `once('newListener', ...)` handler: when the first listener of any
kind is attached, a `setImmediate(emitOneEvent)` is scheduled.  Nothing is
delivered synchronously. -/
def attachFirstListener {α : Type} (s : CorkedState α) : CorkedState α :=
  { s with drainScheduled := true }

/-- The `err` argument of the iterator's `inject`: the listeners bind it
to `null` (searchEntry/searchReference), `true` (end), or pass the error
object through (error).  Only `null` is falsy. -/
inductive ErrArg where
  | null
  | done
  | errObj (e : Nat)
  deriving Repr, DecidableEq

def ErrArg.truthy : ErrArg → Bool
  | .null => false
  | _ => true

/-- Errors raised by the embedded JavaScript, plus rejection of the
`toArray` promise with what a rejected iterator promise carried. -/
inductive JsError where
  | typeError
  | invalidDN
  | operationRequired
  | iterationRejected (e : ErrArg)
  deriving Repr, DecidableEq

/-- One firing of `emitOneEvent`: `self.eventQueue.shift()()` emits the
head of the queue; if the queue is then empty, `eventQueue` is set to
`false`, otherwise another `setImmediate` is scheduled.  When the queue is
already empty, `shift()` returns `undefined` and calling it throws a
TypeError; likewise if `eventQueue` is already `false`, `false.shift` is
not a function. -/
def drainStep {α : Type} (s : CorkedState α) : Except JsError (CorkedState α) :=
  if s.drainScheduled then
    match s.eventQueue with
    | some [] => .error .typeError
    | some (e :: rest) =>
        if rest.isEmpty then
          .ok { eventQueue := none, drainScheduled := false,
                delivered := s.delivered ++ [e] }
        else
          .ok { eventQueue := some rest, drainScheduled := true,
                delivered := s.delivered ++ [e] }
    | none => .error .typeError
  else
    .ok s

/-- Run up to `fuel` scheduler ticks of the drain loop. -/
def drainRun {α : Type} (fuel : Nat) (s : CorkedState α) : Except JsError (CorkedState α) :=
  match fuel with
  | 0 => .ok s
  | fuel' + 1 =>
      if s.drainScheduled then
        match drainStep s with
        | .error e => .error e
        | .ok s' => drainRun fuel' s'
      else
        .ok s

theorem corkedEmit_foldl_corked {α : Type} (l : List α) (q d : List α) (b : Bool) :
    l.foldl corkedEmit ⟨some q, b, d⟩ = ⟨some (q ++ l), b, d⟩ := by
  induction l generalizing q with
  | nil => simp
  | cons e rest ih =>
      simp only [List.foldl_cons, corkedEmit]
      rw [ih]
      simp

theorem corkedEmit_foldl_uncorked {α : Type} (l : List α) (d : List α) (b : Bool) :
    l.foldl corkedEmit ⟨none, b, d⟩ = ⟨none, b, d ++ l⟩ := by
  induction l generalizing d with
  | nil => simp
  | cons e rest ih =>
      simp only [List.foldl_cons, corkedEmit]
      rw [ih]
      simp

theorem drainRun_succ {α : Type} (n : Nat) (s : CorkedState α) :
    drainRun (n + 1) s =
      if s.drainScheduled then
        match drainStep s with
        | .error e => .error e
        | .ok s' => drainRun n s'
      else .ok s := rfl

theorem drainRun_of_nonempty {α : Type} (l : List α) (h : l ≠ []) (d : List α) :
    drainRun l.length ⟨some l, true, d⟩ = .ok ⟨none, false, d ++ l⟩ := by
  induction l generalizing d with
  | nil => exact absurd rfl h
  | cons e rest ih =>
      cases rest with
      | nil =>
          simp [drainRun, drainStep]
      | cons e2 rest2 =>
          have hne : e2 :: rest2 ≠ [] := by simp
          have hstep : drainStep (⟨some (e :: e2 :: rest2), true, d⟩ : CorkedState α) =
              .ok ⟨some (e2 :: rest2), true, d ++ [e]⟩ := by
            simp [drainStep]
          rw [List.length_cons, drainRun_succ, hstep]
          show drainRun (e2 :: rest2).length
              (⟨some (e2 :: rest2), true, d ++ [e]⟩ : CorkedState α) =
            .ok ⟨none, false, d ++ e :: e2 :: rest2⟩
          rw [ih hne (d ++ [e])]
          simp

/-- Claim C7: every event emitted while corked is buffered; after the first
listener is attached, the buffered events are replayed one per scheduler
tick in their original emit order (nothing is delivered at attach time);
once the queue has drained, `eventQueue` is `false` and every later emit
is delivered directly, never buffered. -/
theorem corked_replay_in_order {α : Type} (pre post : List α) (h : pre ≠ []) :
    (attachFirstListener (pre.foldl corkedEmit (corkedInit α))).delivered = [] ∧
    drainRun pre.length (attachFirstListener (pre.foldl corkedEmit (corkedInit α))) =
      .ok ⟨none, false, pre⟩ ∧
    post.foldl corkedEmit ⟨none, false, pre⟩ = ⟨none, false, pre ++ post⟩ := by
  refine ⟨?_, ?_, ?_⟩
  · rw [show corkedInit α = ⟨some [], false, []⟩ from rfl, corkedEmit_foldl_corked]
    rfl
  · rw [show corkedInit α = ⟨some [], false, []⟩ from rfl, corkedEmit_foldl_corked]
    have := drainRun_of_nonempty pre h []
    simpa [attachFirstListener] using this
  · exact corkedEmit_foldl_uncorked post pre false

/-- Witness for `corked_replay_in_order` at a concrete run: two events
buffered while corked, replayed in order, then one direct emit. -/
theorem corked_replay_in_order_witness :
    ([1, 2] ≠ ([] : List Nat)) ∧
    ((attachFirstListener ([1, 2].foldl corkedEmit (corkedInit Nat))).delivered = [] ∧
     drainRun ([1, 2] : List Nat).length
        (attachFirstListener ([1, 2].foldl corkedEmit (corkedInit Nat))) =
       .ok ⟨none, false, [1, 2]⟩ ∧
     ([3] : List Nat).foldl corkedEmit ⟨none, false, [1, 2]⟩ = ⟨none, false, [1, 2] ++ [3]⟩) :=
  ⟨by decide, corked_replay_in_order [1, 2] [3] (by decide)⟩

/-- Claim C9: if the first listener is attached while the buffered queue is
empty and no event arrives before the next tick, the drain step invokes
`undefined` (`eventQueue.shift()()` on an empty array) and throws, rather
than quietly uncorking. -/
theorem corked_uncork_empty_queue_crashes :
    drainStep (attachFirstListener (corkedInit Nat)) = .error .typeError ∧
    ∀ s : CorkedState Nat,
      drainStep (attachFirstListener (corkedInit Nat)) ≠ .ok s := by
  refine ⟨rfl, ?_⟩
  intro s hs
  simp [drainStep, attachFirstListener, corkedInit] at hs

/-! ## SearchResult entries iterator (lib/client/search-result) -/

/-- A message delivered to a search listener (`SearchEntry`, or the final
`LDAPResult` of the `end` event).  The iterator's `inject` reads only its
`value` property; JavaScript objects are always truthy. -/
structure Msg where
  value : Nat
  deriving Repr, DecidableEq

/-- One Deferred in the iterator's `eventStream` promise queue. -/
inductive Cell where
  | pending
  | resolved (v : Nat)
  | rejected (e : ErrArg)
  deriving Repr, DecidableEq

/-- `inject(err, val)` of `getInjectableAsyncIterator`: settles the tail
promise of `eventStream`.  A truthy `val` resolves the tail with
`val.value` and, when `err` is falsy, pushes a fresh pending Deferred; a
truthy `err` with no `val` rejects the tail.  If the stream were empty,
reading the (undefined) tail and calling `.resolve` on it would throw. -/
def inject (stream : List Cell) (err : ErrArg) (val : Option Msg) :
    Except JsError (List Cell) :=
  match stream.getLast? with
  | none => .error .typeError
  | some _ =>
      match val with
      | some m =>
          let s1 := stream.dropLast ++ [Cell.resolved m.value]
          if err.truthy then .ok s1 else .ok (s1 ++ [Cell.pending])
      | none =>
          if err.truthy then .ok (stream.dropLast ++ [Cell.rejected err])
          else .ok stream

/-- Events a SearchResult emitter can deliver to the listeners that
`entries` attaches. -/
inductive SEvent where
  | searchEntry (m : Msg)
  | searchReference (m : Msg)
  | endEvent (m : Msg)
  | errorEvent (e : Nat)
  | pageEvent (m : Msg)
  deriving Repr, DecidableEq

/-- Options accepted by `SearchResult.prototype.entries`. -/
structure EntriesOptions where
  includeSearchReferences : Bool := false
  pagePause : Bool := false
  deriving Repr, DecidableEq

/-- Listener-side state while events arrive: the promise queue, whether
the base listeners were removed (by the pagePause page handler), and
whether the `once('page')` handler is still armed. -/
structure IterState where
  stream : List Cell
  baseRemoved : Bool
  pageArmed : Bool
  deriving Repr, DecidableEq

/-- One event delivered to the listeners attached by `entries`:
`error` injects the error, `end` injects `(true, msg)`, `searchEntry`
injects `(null, msg)`, `searchReference` likewise but only when
`includeSearchReferences` was requested, and with `pagePause` the
once-armed `page` handler removes the base listeners and injects
`(true, msg)`. -/
def listenStep (o : EntriesOptions) (st : IterState) (ev : SEvent) :
    Except JsError IterState :=
  match ev with
  | .pageEvent m =>
      if st.pageArmed then
        (inject st.stream .done (some m)).map fun s' =>
          { stream := s', baseRemoved := true, pageArmed := false }
      else .ok st
  | .errorEvent e =>
      if st.baseRemoved then .ok st
      else (inject st.stream (.errObj e) none).map fun s' => { st with stream := s' }
  | .endEvent m =>
      if st.baseRemoved then .ok st
      else (inject st.stream .done (some m)).map fun s' => { st with stream := s' }
  | .searchEntry m =>
      if st.baseRemoved then .ok st
      else (inject st.stream .null (some m)).map fun s' => { st with stream := s' }
  | .searchReference m =>
      if st.baseRemoved ∨ ¬o.includeSearchReferences then .ok st
      else (inject st.stream .null (some m)).map fun s' => { st with stream := s' }

/-- Outcome of driving the async generator over a settled stream:
`finished yields ret` (the generator returned, `ret` not yielded),
`raised yields e` (a rejected promise was awaited), or `blocked yields`
(an unsettled promise was awaited and never settles). -/
inductive IterOutcome where
  | finished (yields : List Nat) (ret : Option Nat)
  | raised (yields : List Nat) (e : ErrArg)
  | blocked (yields : List Nat)
  deriving Repr, DecidableEq

/-- The generator body of `getInjectableAsyncIterator`: await the head of
`eventStream`, shift it, and yield it if the stream is still nonempty,
else return it.  Awaiting an empty stream's head (`undefined`) returns
`undefined` at once, so the generator returns with no value. -/
def genRun : List Cell → IterOutcome
  | [] => .finished [] none
  | Cell.pending :: _ => .blocked []
  | Cell.rejected e :: _ => .raised [] e
  | Cell.resolved v :: rest =>
      if rest.isEmpty then .finished [] (some v)
      else
        match genRun rest with
        | .finished ys r => .finished (v :: ys) r
        | .raised ys e => .raised (v :: ys) e
        | .blocked ys => .blocked (v :: ys)

/-- `SearchResult.prototype.entries(options)` begins by attaching the
error/end/searchEntry listeners and then reads
`options.includeSearchReferences`; when `entries` is called with no
argument that property read throws a TypeError. -/
def entries (options : Option EntriesOptions) : Except JsError EntriesOptions :=
  match options with
  | none => .error .typeError
  | some o => .ok o

/-- Feed a completed event sequence through the listeners.  The
`eventStream` starts as `[new Deferred()]`; the `page` handler is armed
only when `pagePause` was requested. -/
def runEvents (o : EntriesOptions) (events : List SEvent) : Except JsError IterState :=
  events.foldlM (listenStep o) ⟨[Cell.pending], false, o.pagePause⟩

/-- `SearchResult.prototype.toArray(options)`: iterate `entries(options)`
with for-await, collecting the yielded values.  `.ok (some ys)` models
the returned promise resolving with `ys`; `.ok none` models a promise
that never settles; `.error` models rejection. -/
def toArray (options : Option EntriesOptions) (events : List SEvent) :
    Except JsError (Option (List Nat)) :=
  match entries options with
  | .error e => .error e
  | .ok o =>
      match runEvents o events with
      | .error e => .error e
      | .ok st =>
          match genRun st.stream with
          | .finished ys _ => .ok (some ys)
          | .raised _ e => .error (.iterationRejected e)
          | .blocked _ => .ok none

/-- Claim C1: against a server returning three entries and then a done result,
the iterator yields the three entry values in order and terminates on
`end`, and it raises after draining the buffer when the stream errors —
but `toArray()` called with no arguments rejects with a TypeError
(`entries` reads `includeSearchReferences` off the missing options
object) instead of resolving to the entries. -/
theorem toArray_no_options_rejects :
    toArray none
        [SEvent.searchEntry ⟨1⟩, .searchEntry ⟨2⟩, .searchEntry ⟨3⟩, .endEvent ⟨0⟩] =
      .error .typeError ∧
    toArray (some {})
        [SEvent.searchEntry ⟨1⟩, .searchEntry ⟨2⟩, .searchEntry ⟨3⟩, .endEvent ⟨0⟩] =
      .ok (some [1, 2, 3]) ∧
    toArray (some {}) [SEvent.searchEntry ⟨1⟩, .searchEntry ⟨2⟩, .errorEvent 9] =
      .error (.iterationRejected (.errObj 9)) :=
  ⟨rfl, rfl, rfl⟩

/-! ## Modify change itemization (Client.prototype.modify) -/

/-- A JavaScript value as it appears in a modification object: one
attribute value, an array of values, a number, or a `[key, value]` pair
array produced by `Object.entries`. -/
inductive JVal where
  | str (s : String)
  | num (n : Nat)
  | strList (vs : List String)
  | pair (key : String) (val : String)
  deriving Repr, DecidableEq

/-- `String(v)` for a computed property name: arrays join their
stringified elements with commas. -/
def JVal.toKeyString : JVal → String
  | .str s => s
  | .num n => toString n
  | .strList vs => String.intercalate "," vs
  | .pair k v => k ++ "," ++ v

/-- The stringification of a `[key, value]` pair array: the pair is
itself an array, so `String(pair)` joins the stringified key and value
with a comma. -/
def entryPair (k : String) (v : JVal) : JVal := .pair k v.toKeyString

/-- What the source hands to the `Change` constructor: an operation and a
modification object (association list in insertion order). -/
structure JChange where
  operation : Option String
  modification : List (String × JVal)
  deriving Repr, DecidableEq

/-- A plain (non-`Change`) change argument: `c.operation`, `c.type`, and
`c.modification` as an object. -/
structure ChangeObj where
  operation : Option String
  ctype : Option String
  modification : List (String × JVal)
  deriving Repr, DecidableEq

/-- The canonical `{type, vals}` test: exactly two keys, `type` a string
and `vals` an array. -/
def canonicalShape (modification : List (String × JVal)) : Bool :=
  modification.length == 2 &&
  (match modification.lookup "type" with
   | some (JVal.str _) => true
   | _ => false) &&
  (match modification.lookup "vals" with
   | some (JVal.strList _) => true
   | _ => false)

/-- The per-attribute branch of `changesFromObject`:
`Object.entries(c.modification).map(function (k, val) ...)`.
`Object.entries` yields `[key, value]` pair arrays, and `Array.map`
passes `(element, index)` to its callback — so `k` is bound to the whole
pair array and `val` to the numeric index, and the computed property
`{ [k]: val }` uses the stringified pair as the key and the index as the
value. -/
def itemizeModification (operation : Option String)
    (modification : List (String × JVal)) : List JChange :=
  (modification.map fun p => entryPair p.1 p.2).enum.map fun iv =>
    { operation := operation
      modification := [(iv.2.toKeyString, JVal.num iv.1)] }

/-- `changesFromObject` in `Client.prototype.modify`: requires an
operation (or type) and an object modification; keeps a canonical
`{type, vals}` modification whole (with `operation: c.type`), otherwise
itemizes per attribute with `operation: c.operation || c.type`. -/
def changesFromObject (c : ChangeObj) : Except JsError (List JChange) :=
  if c.operation.isNone ∧ c.ctype.isNone then .error .operationRequired
  else if canonicalShape c.modification then
    .ok [{ operation := c.ctype, modification := c.modification }]
  else
    .ok (itemizeModification (c.operation.or c.ctype) c.modification)

/-- A member of the change argument: a real `Change` instance (kept
as-is) or a plain object. -/
inductive ChangeItem where
  | changeInstance (ch : JChange)
  | obj (c : ChangeObj)
  deriving Repr, DecidableEq

/-- The change argument of `modify`: a single item or an array. -/
inductive ChangeArg where
  | single (i : ChangeItem)
  | list (items : List ChangeItem)
  deriving Repr, DecidableEq

def itemizeOne : ChangeItem → Except JsError (List JChange)
  | .changeInstance ch => .ok [ch]
  | .obj c => changesFromObject c

/-- `itemizeChanges` in `Client.prototype.modify`: a `Change` is kept,
an array is flat-mapped, a plain object goes through
`changesFromObject`. -/
def itemizeChanges : ChangeArg → Except JsError (List JChange)
  | .single i => itemizeOne i
  | .list items =>
      items.foldlM (fun acc i => (itemizeOne i).map (acc ++ ·)) []

/-- Claim C2: for `modify(dn, {operation: "replace", modification: {cn: ["foo"]}})`
the dispatched change does NOT pair the attribute `cn` with its values —
because `Array.map` hands `(element, index)` to the callback, the built
modification is `{"cn,foo": 0}` (stringified `[key, values]` pair as the
key, the index as the value). -/
theorem modify_itemize_swapped :
    itemizeChanges
        (.single (.obj
          { operation := some "replace", ctype := none,
            modification := [("cn", JVal.strList ["foo"])] })) =
      .ok [{ operation := some "replace",
             modification := [("cn,foo", JVal.num 0)] }] ∧
    ∀ chs, itemizeChanges
        (.single (.obj
          { operation := some "replace", ctype := none,
            modification := [("cn", JVal.strList ["foo"])] })) = .ok chs →
      ¬ (∃ ch ∈ chs,
          ch.modification = [("cn", JVal.strList ["foo"])]) := by
  have h1 : itemizeChanges
      (.single (.obj
        { operation := some "replace", ctype := none,
          modification := [("cn", JVal.strList ["foo"])] })) =
    .ok [{ operation := some "replace",
           modification := [("cn,foo", JVal.num 0)] }] := by
    rfl
  refine ⟨h1, ?_⟩
  intro chs hch
  rw [h1] at hch
  injection hch with h2
  subst h2
  decide

/-! ## Message tracker and the per-request timeout -/

/-- The message tracker's observable state: pending entries map a
messageID to its handler (handlers named by numbers), plus the abandoned
id set. -/
structure Tracker where
  pending : List (Nat × Nat)
  abandoned : List Nat
  deriving Repr, DecidableEq

/-- Modelled from the spec: the message-tracker module is not part of the
given sources; per §4.1, `fetch(id)` returns the handler registered for
`id` without removing it. -/
def Tracker.fetch (t : Tracker) (id : Nat) : Option Nat :=
  (t.pending.find? fun p => p.1 == id).map (·.2)

/-- Modelled from the spec: per §4.1, `abandon(id)` records `id` in
`abandonedIDs` and removes the pending entry. -/
def Tracker.abandon (t : Tracker) (id : Nat) : Tracker :=
  { pending := t.pending.filter fun p => p.1 != id
    abandoned := id :: t.abandoned }

/-- Messages the client writes to the server socket. -/
inductive WireMsg where
  | abandonRequest (id : Nat)
  | unbindRequest (id : Nat)
  | otherRequest (id : Nat)
  deriving Repr, DecidableEq

/-- What a pending handler is invoked with. -/
inductive HandlerArg where
  | timeoutError
  | connectionError
  | unbindSuccess (id : Nat)
  | resultMsg (v : Nat)
  deriving Repr, DecidableEq

/-- Everything observable from one firing of the request timer. -/
structure TimeoutOutcome where
  emittedTimeout : Bool
  tracker : Tracker
  handlerCalls : List (Nat × HandlerArg)
  sent : List WireMsg
  deriving Repr, DecidableEq

/-- The `onTimeout` body of `startRequestTimer` in
`Client.prototype._sendRequest`: emit `timeout`, and if the message is
still tracked, mark its id abandoned in the tracker and invoke the
pending handler with a TimeoutError.  Nothing is written to the socket
(`sent` is always empty): the handler never dispatches an
AbandonRequest. -/
def onRequestTimeout (t : Tracker) (msgID : Nat) : TimeoutOutcome :=
  match t.fetch msgID with
  | some h =>
      { emittedTimeout := true
        tracker := t.abandon msgID
        handlerCalls := [(h, .timeoutError)]
        sent := [] }
  | none =>
      { emittedTimeout := true, tracker := t, handlerCalls := [], sent := [] }

/-- Claim C3 counterexample: with `timeout > 0` and message 7 pending, the
timer fires the TimeoutError into the handler but the client writes no
AbandonRequest (nothing at all) to the server, contrary to the claim. -/
theorem timeout_no_abandon_request_sent :
    (onRequestTimeout ⟨[(7, 1)], []⟩ 7).handlerCalls = [(1, .timeoutError)] ∧
    (onRequestTimeout ⟨[(7, 1)], []⟩ 7).sent = [] ∧
    WireMsg.abandonRequest 7 ∉ (onRequestTimeout ⟨[(7, 1)], []⟩ 7).sent := by
  refine ⟨rfl, rfl, ?_⟩
  intro hmem
  simp [onRequestTimeout, Tracker.fetch] at hmem

/-- Claim C3 (amended): when the response of a tracked request has not arrived
before the timer fires, the pending handler is invoked with a
TimeoutError and the messageID is marked abandoned in the tracker (so a
late response is discarded) — but no AbandonRequest is sent to the
server. -/
theorem timeout_fires_and_marks_abandoned (t : Tracker) (id h : Nat)
    (hf : t.fetch id = some h) :
    (onRequestTimeout t id).emittedTimeout = true ∧
    (onRequestTimeout t id).handlerCalls = [(h, .timeoutError)] ∧
    id ∈ (onRequestTimeout t id).tracker.abandoned ∧
    (onRequestTimeout t id).tracker.fetch id = none ∧
    (onRequestTimeout t id).sent = [] := by
  refine ⟨?_, ?_, ?_, ?_, ?_⟩
  · simp only [onRequestTimeout, hf]
  · simp only [onRequestTimeout, hf]
  · simp [onRequestTimeout, hf, Tracker.abandon]
  · simp only [onRequestTimeout, hf]
    simp only [Tracker.abandon, Tracker.fetch]
    rw [List.find?_eq_none.mpr]
    · rfl
    · intro p hp
      have := List.of_mem_filter hp
      simpa using this
  · simp only [onRequestTimeout, hf]

/-- Witness for `timeout_fires_and_marks_abandoned` with message 7
pending under handler 1. -/
theorem timeout_fires_and_marks_abandoned_witness :
    (Tracker.fetch ⟨[(7, 1)], []⟩ 7 = some 1) ∧
    ((onRequestTimeout ⟨[(7, 1)], []⟩ 7).emittedTimeout = true ∧
     (onRequestTimeout ⟨[(7, 1)], []⟩ 7).handlerCalls = [(1, .timeoutError)] ∧
     7 ∈ (onRequestTimeout ⟨[(7, 1)], []⟩ 7).tracker.abandoned ∧
     (onRequestTimeout ⟨[(7, 1)], []⟩ 7).tracker.fetch 7 = none ∧
     (onRequestTimeout ⟨[(7, 1)], []⟩ 7).sent = []) :=
  ⟨rfl, timeout_fires_and_marks_abandoned ⟨[(7, 1)], []⟩ 7 1 rfl⟩

/-! ## Socket close (Client.prototype._onClose) -/

/-- Client state read by `_onClose`: the tracker's pending entries, the
`unbindMessageID` stamped on the socket by a sent unbind, and whether
reconnect is configured. -/
structure CloseInput where
  pendingMsgs : List (Nat × Nat)
  unbindMessageID : Option Nat
  reconnect : Bool
  deriving Repr, DecidableEq

/-- Observable results of `_onClose`. -/
structure CloseOutcome where
  connected : Bool
  responses : List (Nat × HandlerArg)
  trackerPending : List (Nat × Nat)
  trackerCleared : Bool
  emittedClose : Bool
  connectCalled : Bool
  deriving Repr, DecidableEq

/-- JavaScript truthiness of `socket.unbindMessageID`. -/
def optNatTruthy : Option Nat → Bool
  | none => false
  | some n => n != 0

/-- `Client.prototype._onClose`: clear `connected`; purge the tracker
(modelled from the spec §4.1: the message-tracker module is not in the
given sources — `purge(fn)` invokes `fn(id, handler)` for each pending
entry and leaves the map empty), answering the outstanding unbind with a
synthetic success and everything else with a ConnectionError; null the
tracker; emit `close`; and call `connect()` when reconnect is configured
and the close was not caused by an unbind. -/
def onClose (st : CloseInput) : CloseOutcome :=
  { connected := false
    responses := st.pendingMsgs.map fun p =>
      if st.unbindMessageID = some p.1 then (p.2, HandlerArg.unbindSuccess p.1)
      else (p.2, HandlerArg.connectionError)
    trackerPending := []
    trackerCleared := true
    emittedClose := true
    connectCalled := st.reconnect && !(optNatTruthy st.unbindMessageID) }

/-- Claim C4: on socket close every pending handler receives a ConnectionError
except the outstanding unbind's handler, which receives a synthetic
success; afterwards the tracker is empty and cleared; and the connect
loop is re-entered exactly when reconnect is enabled and the close was
not caused by an unbind. -/
theorem onClose_purges_and_reconnects (st : CloseInput)
    (hid : st.unbindMessageID ≠ some 0) :
    (∀ p ∈ st.pendingMsgs, st.unbindMessageID ≠ some p.1 →
        (p.2, HandlerArg.connectionError) ∈ (onClose st).responses) ∧
    (∀ p ∈ st.pendingMsgs, st.unbindMessageID = some p.1 →
        (p.2, HandlerArg.unbindSuccess p.1) ∈ (onClose st).responses) ∧
    (onClose st).responses.length = st.pendingMsgs.length ∧
    (onClose st).trackerPending = [] ∧
    (onClose st).trackerCleared = true ∧
    (onClose st).connected = false ∧
    ((onClose st).connectCalled = true ↔
      st.reconnect = true ∧ st.unbindMessageID = none) := by
  refine ⟨?_, ?_, ?_, rfl, rfl, rfl, ?_⟩
  · intro p hp hne
    simp only [onClose, List.mem_map]
    exact ⟨p, hp, by simp [hne]⟩
  · intro p hp heq
    simp only [onClose, List.mem_map]
    exact ⟨p, hp, by simp [heq]⟩
  · simp [onClose]
  · simp only [onClose, Bool.and_eq_true, Bool.not_eq_true']
    cases hu : st.unbindMessageID with
    | none => simp [optNatTruthy]
    | some n =>
        have hn : n ≠ 0 := by
          intro h0
          exact hid (by rw [hu, h0])
        simp [optNatTruthy, hn]

/-- Witness for `onClose_purges_and_reconnects`: two pending messages, an
outstanding unbind on id 5, reconnect enabled (close caused by unbind, so
no reconnect). -/
theorem onClose_purges_and_reconnects_witness :
    ((⟨[(3, 30), (5, 50)], some 5, true⟩ : CloseInput).unbindMessageID ≠ some 0) ∧
    ((∀ p ∈ (⟨[(3, 30), (5, 50)], some 5, true⟩ : CloseInput).pendingMsgs,
        (⟨[(3, 30), (5, 50)], some 5, true⟩ : CloseInput).unbindMessageID ≠ some p.1 →
        (p.2, HandlerArg.connectionError) ∈
          (onClose ⟨[(3, 30), (5, 50)], some 5, true⟩).responses) ∧
     (∀ p ∈ (⟨[(3, 30), (5, 50)], some 5, true⟩ : CloseInput).pendingMsgs,
        (⟨[(3, 30), (5, 50)], some 5, true⟩ : CloseInput).unbindMessageID = some p.1 →
        (p.2, HandlerArg.unbindSuccess p.1) ∈
          (onClose ⟨[(3, 30), (5, 50)], some 5, true⟩).responses) ∧
     (onClose ⟨[(3, 30), (5, 50)], some 5, true⟩).responses.length =
        (⟨[(3, 30), (5, 50)], some 5, true⟩ : CloseInput).pendingMsgs.length ∧
     (onClose ⟨[(3, 30), (5, 50)], some 5, true⟩).trackerPending = [] ∧
     (onClose ⟨[(3, 30), (5, 50)], some 5, true⟩).trackerCleared = true ∧
     (onClose ⟨[(3, 30), (5, 50)], some 5, true⟩).connected = false ∧
     ((onClose ⟨[(3, 30), (5, 50)], some 5, true⟩).connectCalled = true ↔
        (⟨[(3, 30), (5, 50)], some 5, true⟩ : CloseInput).reconnect = true ∧
        (⟨[(3, 30), (5, 50)], some 5, true⟩ : CloseInput).unbindMessageID = none)) :=
  ⟨by decide, onClose_purges_and_reconnects ⟨[(3, 30), (5, 50)], some 5, true⟩ (by decide)⟩

/-! ## Paged results (lib/client/search-result/paged-result.js) -/

def pagedResultsOID : String := "1.2.840.113556.1.4.319"

/-- The `value` of a control: only the cookie matters to the end
handler. -/
structure PCtlValue where
  cookie : List Nat
  deriving Repr, DecidableEq

/-- A response control: its OID (`type`) and value. -/
structure PCtl where
  ctype : String
  value : PCtlValue
  deriving Repr, DecidableEq

/-- The response message seen by the `end` handler. -/
structure PMsg where
  controls : List PCtl
  deriving Repr, DecidableEq

/-- Errors surfaced on the search stream by the paged driver. -/
structure PErr where
  name : String
  message : String
  deriving Repr, DecidableEq

def pagedNotSupportedErr : PErr :=
  { name := "PagedResultsError", message := "paged search not supported by server" }

/-- Events the `end` handler emits on the relay target (the
SearchResult emitter).  `page`'s second field records whether a resume
argument was passed (`options.pagePause && function` / the real
`resumeNextPage`). -/
inductive PEvent where
  | page (m : PMsg) (resumeGiven : Bool)
  | pageError (e : PErr)
  | endEvent (m : PMsg)
  | errorEvent (e : PErr)
  deriving Repr, DecidableEq

structure POptions where
  pagePause : Bool := false
  deriving Repr, DecidableEq

/-- Observables of one run of the `end` handler. -/
structure EndOutcome where
  events : List PEvent
  controlCookie : List Nat
  nextPageIssued : Bool
  deriving Repr, DecidableEq

/-- The `end` handler installed by `PageResult`: look for a
PagedResultsControl on the response.  Without one, emit `page` and then
`pageError` + `end` when a `pageError` listener exists, else a single
`error`; never issue another page.  With an empty cookie, emit `page`
then `end`.  Otherwise store the cookie into the shared control and
either hand a resume callback to the `page` listener (`pagePause`) or
immediately request the next page. -/
def onPageEnd (options : POptions) (controlCookie : List Nat)
    (hasPageErrorListeners : Bool) (msg : PMsg) : EndOutcome :=
  match msg.controls.find? (fun c => c.ctype == pagedResultsOID) with
  | none =>
      if hasPageErrorListeners then
        { events := [.page msg options.pagePause, .pageError pagedNotSupportedErr,
                     .endEvent msg]
          controlCookie := controlCookie
          nextPageIssued := false }
      else
        { events := [.page msg options.pagePause, .errorEvent pagedNotSupportedErr]
          controlCookie := controlCookie
          nextPageIssued := false }
  | some pc =>
      if pc.value.cookie.isEmpty then
        { events := [.page msg options.pagePause, .endEvent msg]
          controlCookie := controlCookie
          nextPageIssued := false }
      else if options.pagePause then
        { events := [.page msg true]
          controlCookie := pc.value.cookie
          nextPageIssued := false }
      else
        { events := [.page msg false]
          controlCookie := pc.value.cookie
          nextPageIssued := true }

/-- Claim C5: when a paged-search response carries no PagedResultsControl, the
stream gets `page` first and then a `pageError` (plus `end`) when a
`pageError` listener is attached, otherwise a single `error`; in both
cases no further paged request is issued. -/
theorem paged_missing_control_terminates (options : POptions)
    (ck : List Nat) (hasPE : Bool) (msg : PMsg)
    (hnone : ∀ c ∈ msg.controls, c.ctype ≠ pagedResultsOID) :
    (onPageEnd options ck hasPE msg).events =
      .page msg options.pagePause ::
        (if hasPE then [.pageError pagedNotSupportedErr, .endEvent msg]
         else [.errorEvent pagedNotSupportedErr]) ∧
    (onPageEnd options ck hasPE msg).nextPageIssued = false := by
  have hf : msg.controls.find? (fun c => c.ctype == pagedResultsOID) = none := by
    rw [List.find?_eq_none]
    intro c hc
    simpa using hnone c hc
  cases hasPE <;> simp [onPageEnd, hf]

/-- Witness for `paged_missing_control_terminates`: a response whose only
control is not the paged-results control, with a `pageError` listener
attached. -/
theorem paged_missing_control_terminates_witness :
    (∀ c ∈ (⟨[⟨"2.16.840.1.113730.3.4.2", ⟨[]⟩⟩]⟩ : PMsg).controls,
        c.ctype ≠ pagedResultsOID) ∧
    ((onPageEnd ⟨false⟩ [] true ⟨[⟨"2.16.840.1.113730.3.4.2", ⟨[]⟩⟩]⟩).events =
      .page ⟨[⟨"2.16.840.1.113730.3.4.2", ⟨[]⟩⟩]⟩ (⟨false⟩ : POptions).pagePause ::
        (if true then [.pageError pagedNotSupportedErr,
                       .endEvent ⟨[⟨"2.16.840.1.113730.3.4.2", ⟨[]⟩⟩]⟩]
         else [.errorEvent pagedNotSupportedErr]) ∧
     (onPageEnd ⟨false⟩ [] true ⟨[⟨"2.16.840.1.113730.3.4.2", ⟨[]⟩⟩]⟩).nextPageIssued =
       false) :=
  ⟨by decide, paged_missing_control_terminates ⟨false⟩ [] true
      ⟨[⟨"2.16.840.1.113730.3.4.2", ⟨[]⟩⟩]⟩ (by decide)⟩

/-! ## StartTLS success path (Client.prototype.starttls) -/

/-- A socket's listener lists (listener functions named by numbers). -/
structure NSocket where
  dataListeners : List Nat
  errorListeners : List Nat
  deriving Repr, DecidableEq

/-- The client state the StartTLS reply handler manipulates:
`callbackResult = none` means the user callback has not been invoked;
`some none` success; `some (some e)` failure. -/
structure TlsState where
  clientSocket : NSocket
  starttlsPhase : Option String
  callbackResult : Option (Option JsError)
  deriving Repr, DecidableEq

/-- `this.on(event, listener)` where `this` may be `undefined`: inside a
plain `function (listener) { this.on(...) }` callback handed to
`Array.prototype.forEach`, strict-mode code binds `this` to `undefined`,
and reading `.on` off `undefined` throws a TypeError. -/
def jsThisOn (thisArg : Option NSocket) (isData : Bool) (l : Nat) :
    Except JsError NSocket :=
  match thisArg with
  | none => .error .typeError
  | some s =>
      if isData then .ok { s with dataListeners := s.dataListeners ++ [l] }
      else .ok { s with errorListeners := s.errorListeners ++ [l] }

/-- `listeners.forEach(function (listener) { this.on(event, listener) })`
with the callback's `this` fixed by strict-mode semantics. -/
def forEachThisOn (thisArg : Option NSocket) (isData : Bool) :
    List Nat → Except JsError Unit
  | [] => .ok ()
  | l :: rest => do
      let _ ← jsThisOn thisArg isData l
      forEachThisOn thisArg isData rest

/-- The `onSecureConnection` callback of the StartTLS success path
(source: `tls.connect(options, function onSecureConnection () {...})`).
It re-attaches the saved `data` listeners and the TCP socket's `error`
listeners — but both `forEach` callbacks are plain strict-mode functions
whose `this` is `undefined`, not the TLS socket.  Only if both listener
lists are empty does the body reach the success tail: replace the
client's socket with the TLS socket (whose own `error` listeners were
removed), clear `_starttls`, and invoke the callback with no error. -/
def onSecureConnection (dataListeners tcpErrorListeners : List Nat)
    (tlsSocket : NSocket) : Except JsError TlsState := do
  let _ ← forEachThisOn none true dataListeners
  let tlsCleared : NSocket := { tlsSocket with errorListeners := [] }
  let _ ← forEachThisOn none false tcpErrorListeners
  .ok { clientSocket := tlsCleared, starttlsPhase := none,
        callbackResult := some none }

/-- Claim C6: the StartTLS success handler never reaches the state updates the
claim describes — with any saved `data` listener (the response tracker
always installs one) the re-attach loop throws a TypeError because the
`forEach` callback's `this` is `undefined` in strict mode, so the
listeners are not moved, the socket reference is not replaced, the
starttls phase is not cleared, and the callback is not invoked; only in
the impossible case of no listeners at all would the success tail run. -/
theorem starttls_reattach_crashes :
    (∀ (l : Nat) (rest tcpErr : List Nat) (tls : NSocket),
        onSecureConnection (l :: rest) tcpErr tls = .error .typeError) ∧
    (∀ (tcpE : Nat) (tcpRest : List Nat) (tls : NSocket),
        onSecureConnection [] (tcpE :: tcpRest) tls = .error .typeError) ∧
    onSecureConnection [] [] ⟨[], [9]⟩ = .ok ⟨⟨[], []⟩, none, some none⟩ := by
  refine ⟨?_, ?_, rfl⟩
  · intro l rest tcpErr tls
    rfl
  · intro tcpE tcpRest tls
    rfl

/-! ## destroy / connect (Client.prototype.destroy, Client.prototype.connect) -/

/-- The client state `destroy` and `connect` read and write.  Queued
requests are named by numbers; `failedCallbacks` records callbacks
invoked with a ConnectionError; `events` records emitted client
events. -/
structure DClient where
  queueFrozen : Bool
  queued : List Nat
  failedCallbacks : List (Nat × HandlerArg)
  socketPresent : Bool
  socketDestroyed : Bool
  connected : Bool
  connecting : Bool
  destroyed : Bool
  unbindsSent : Nat
  events : List String
  deriving Repr, DecidableEq

/-- `Client.prototype.destroy`: freeze the queue; flush it, failing every
queued request with a ConnectionError; when a socket exists, send a
courtesy unbind if connected (refused with a ConnectionError by
`_dispatchRequest` when the destroyed flag is already set, as on a repeat
call) and destroy the socket; set `destroyed`; emit `destroy`. -/
def destroyStep (c : DClient) : DClient :=
  let c1 := { c with queueFrozen := true }
  let c2 := { c1 with
    queued := []
    failedCallbacks :=
      c1.failedCallbacks ++ c1.queued.map fun i => (i, HandlerArg.connectionError) }
  let c3 :=
    if c2.socketPresent then
      let c2a :=
        if c2.connected then
          if c2.destroyed then
            { c2 with failedCallbacks :=
                c2.failedCallbacks ++ [(0, HandlerArg.connectionError)] }
          else { c2 with unbindsSent := c2.unbindsSent + 1 }
        else c2
      { c2a with socketDestroyed := true }
    else c2
  { c3 with destroyed := true, events := c3.events ++ ["destroy"] }

/-- `Client.prototype.connect`: returns without effect while connected or
connecting, and — citing its own comment, "Calling destroy will prevent
any further reconnection from occurring" — while destroyed. -/
def connectAttempt (c : DClient) : DClient :=
  if c.connected || c.connecting then c
  else if c.destroyed then c
  else { c with connecting := true }

/-- Claim C8 counterexample: from a client whose socket has already closed,
calling `destroy` twice does not have the same observable effect as
calling it once — the second call emits a second `destroy` event. -/
theorem destroy_twice_emits_twice :
    (destroyStep (destroyStep
        ⟨false, [], [], false, false, false, false, false, 0, []⟩)).events =
      ["destroy", "destroy"] ∧
    (destroyStep
        ⟨false, [], [], false, false, false, false, false, 0, []⟩).events =
      ["destroy"] ∧
    destroyStep (destroyStep
        ⟨false, [], [], false, false, false, false, false, 0, []⟩) ≠
      destroyStep ⟨false, [], [], false, false, false, false, false, 0, []⟩ := by
  refine ⟨rfl, rfl, ?_⟩
  decide

/-- Claim C8 (amended): for every client state, one `destroy` freezes the
queue, fails every queued request with a ConnectionError, destroys the
socket when one is present, sets the destroyed flag, and disables
reconnection (`connect` is a no-op).  A second `destroy` leaves the state
exactly as the first call left it, except that it emits one more
`destroy` event and, when the client still holds a socket and is marked
connected, the repeated courtesy unbind is refused by the dispatcher
(the destroyed flag is now set), failing its callback with a
ConnectionError. -/
theorem destroy_second_call_reemits_and_refuses_unbind (c : DClient) :
    (destroyStep c).queueFrozen = true ∧
    (destroyStep c).queued = [] ∧
    (∀ i ∈ c.queued,
        (i, HandlerArg.connectionError) ∈ (destroyStep c).failedCallbacks) ∧
    (destroyStep c).destroyed = true ∧
    (c.socketPresent = true → (destroyStep c).socketDestroyed = true) ∧
    connectAttempt (destroyStep c) = destroyStep c ∧
    destroyStep (destroyStep c) =
      { destroyStep c with
          failedCallbacks := (destroyStep c).failedCallbacks ++
            (if c.socketPresent && c.connected
             then [(0, HandlerArg.connectionError)] else [])
          events := (destroyStep c).events ++ ["destroy"] } := by
  refine ⟨?_, ?_, ?_, ?_, ?_, ?_, ?_⟩
  · by_cases h1 : c.socketPresent <;> by_cases h2 : c.connected <;>
      by_cases h3 : c.destroyed <;> simp [destroyStep, h1, h2, h3]
  · by_cases h1 : c.socketPresent <;> by_cases h2 : c.connected <;>
      by_cases h3 : c.destroyed <;> simp [destroyStep, h1, h2, h3]
  · intro i hi
    by_cases h1 : c.socketPresent <;> by_cases h2 : c.connected <;>
      by_cases h3 : c.destroyed <;>
      simp [destroyStep, h1, h2, h3, List.mem_append, List.mem_map] <;>
      tauto
  · by_cases h1 : c.socketPresent <;> by_cases h2 : c.connected <;>
      by_cases h3 : c.destroyed <;> simp [destroyStep, h1, h2, h3]
  · intro h1
    by_cases h2 : c.connected <;> by_cases h3 : c.destroyed <;>
      simp [destroyStep, h1, h2, h3]
  · by_cases h1 : c.socketPresent <;> by_cases h2 : c.connected <;>
      by_cases h3 : c.destroyed <;>
      by_cases h4 : c.connecting <;>
      simp [destroyStep, connectAttempt, h1, h2, h3, h4]
  · by_cases h1 : c.socketPresent <;> by_cases h2 : c.connected <;>
      by_cases h3 : c.destroyed <;> simp [destroyStep, h1, h2, h3]

/-- Witness for `destroy_second_call_reemits_and_refuses_unbind`: a
connected client with a socket and two queued requests — the second
`destroy` both re-emits and records the refused unbind's
ConnectionError. -/
theorem destroy_second_call_reemits_and_refuses_unbind_witness :
    ((destroyStep ⟨false, [4, 6], [], true, false, true, false, false, 0, []⟩).queueFrozen
        = true ∧
     (destroyStep ⟨false, [4, 6], [], true, false, true, false, false, 0, []⟩).queued
        = [] ∧
     (∀ i ∈ (⟨false, [4, 6], [], true, false, true, false, false, 0, []⟩ :
          DClient).queued,
        (i, HandlerArg.connectionError) ∈
          (destroyStep
            ⟨false, [4, 6], [], true, false, true, false, false, 0, []⟩).failedCallbacks) ∧
     (destroyStep ⟨false, [4, 6], [], true, false, true, false, false, 0, []⟩).destroyed
        = true ∧
     ((⟨false, [4, 6], [], true, false, true, false, false, 0, []⟩ :
          DClient).socketPresent = true →
       (destroyStep
         ⟨false, [4, 6], [], true, false, true, false, false, 0, []⟩).socketDestroyed
          = true) ∧
     connectAttempt
         (destroyStep ⟨false, [4, 6], [], true, false, true, false, false, 0, []⟩) =
       destroyStep ⟨false, [4, 6], [], true, false, true, false, false, 0, []⟩ ∧
     destroyStep
         (destroyStep ⟨false, [4, 6], [], true, false, true, false, false, 0, []⟩) =
       { destroyStep ⟨false, [4, 6], [], true, false, true, false, false, 0, []⟩ with
           failedCallbacks :=
             (destroyStep
               ⟨false, [4, 6], [], true, false, true, false, false, 0, []⟩).failedCallbacks ++
               (if (⟨false, [4, 6], [], true, false, true, false, false, 0, []⟩ :
                     DClient).socketPresent &&
                   (⟨false, [4, 6], [], true, false, true, false, false, 0, []⟩ :
                     DClient).connected
                then [(0, HandlerArg.connectionError)] else [])
           events :=
             (destroyStep
               ⟨false, [4, 6], [], true, false, true, false, false, 0, []⟩).events ++
               ["destroy"] }) :=
  destroy_second_call_reemits_and_refuses_unbind
    ⟨false, [4, 6], [], true, false, true, false, false, 0, []⟩

/-! ## ensureDN and request construction -/

/-- A DN argument to a client operation: an actual `dn.DN` instance
(carrying its text), a string, or anything else. -/
inductive DNInput where
  | dnObj (d : String)
  | str (s : String)
  | other
  deriving Repr, DecidableEq

/-- What `ensureDN` can return: the `dn` module object itself, a parsed
DN, or the raw string. -/
inductive DNValue where
  | dnModule
  | parsedDN (d : String)
  | rawStr (s : String)
  deriving Repr, DecidableEq

/-- `ensureDN(input, strict)`: when `dn.DN.isDN(input)` it returns the
`dn` MODULE object (not `input`); when strict it parses; a plain string
passes through; anything else throws.  (Modelled from the spec for the
delegated `dn.parse`: DN parsing is out of scope, and parsing a
non-string fails.) -/
def ensureDN (input : DNInput) (strictDN : Bool) : Except JsError DNValue :=
  match input, strictDN with
  | .dnObj _, _ => .ok .dnModule
  | .str s, true => .ok (.parsedDN s)
  | .other, true => .error .typeError
  | .str s, false => .ok (.rawStr s)
  | .other, false => .error .invalidDN

/-- An AddRequest as `Client.prototype.add` constructs it: the entry is
whatever `ensureDN` produced. -/
structure AddRequestModel where
  entry : DNValue
  attributeCount : Nat
  deriving Repr, DecidableEq

/-- `new AddRequest({ entry: ensureDN(name, this.strictDN), ... })`. -/
def buildAddRequest (name : DNInput) (strictDN : Bool) (attrCount : Nat) :
    Except JsError AddRequestModel :=
  (ensureDN name strictDN).map fun d => ⟨d, attrCount⟩

/-- Claim C10: when the argument is already a DN object, `ensureDN` returns
the `dn` module object — the result carries nothing of the caller's DN,
and two different DN arguments give the identical result — so the
AddRequest's entry is the module object; only strings are parsed
(strict) or passed through (non-strict). -/
theorem ensureDN_dn_object_yields_module (d d2 s : String) (strictDN : Bool) :
    ensureDN (.dnObj d) strictDN = .ok .dnModule ∧
    ensureDN (.dnObj d) strictDN = ensureDN (.dnObj d2) strictDN ∧
    (∀ x, ensureDN (.dnObj d) strictDN ≠ .ok (.parsedDN x)) ∧
    (∀ x, ensureDN (.dnObj d) strictDN ≠ .ok (.rawStr x)) ∧
    ensureDN (.str s) true = .ok (.parsedDN s) ∧
    ensureDN (.str s) false = .ok (.rawStr s) ∧
    buildAddRequest (.dnObj d) strictDN 2 = .ok ⟨.dnModule, 2⟩ := by
  cases strictDN <;>
    exact ⟨rfl, rfl, fun x h => by simp [ensureDN] at h,
           fun x h => by simp [ensureDN] at h, rfl, rfl, rfl⟩

end NodeLdap
